import Mathlib

set_option maxHeartbeats 1000000

/-!
Verification of the `PerfMetrics` statistics engine of
`src/cpp/src/perf_metrics.cpp` (openvino.genai).

Times are modelled as exact rationals (microseconds for raw samples,
milliseconds after the unit conversion performed by `calc_mean_and_std`);
the C++ code uses `float`, which we idealize by exact arithmetic.  The
standard deviation is a real number (`Real.sqrt` of a rational radicand).
Fallible code (`OPENVINO_ASSERT`) is modelled with `Option`.
-/

/-- `ov::genai::MeanStdPair`: a (mean, standard deviation) pair in
milliseconds, produced by `calc_mean_and_std`. -/
@[ext]
structure MeanStdPair where
  mean : ℚ
  std : ℝ

/-- `calc_mean_and_std` (perf_metrics.cpp lines 12-27): accepts durations in
microseconds, returns mean and standard deviation in milliseconds.
`mean` is the running `std::accumulate` of `duration/1000` divided by the
count; `std` is `sqrt(sum_square_durations/n - mean*mean)`. -/
noncomputable def calc_mean_and_std (durations : List ℚ) : MeanStdPair :=
  let mean : ℚ := (durations.foldl (fun acc d => acc + d / 1000) 0) / (durations.length : ℚ)
  let sum_square_durations : ℚ :=
    durations.foldl (fun acc d => acc + (d / 1000) * (d / 1000)) 0
  { mean := mean
    std := Real.sqrt ((sum_square_durations / (durations.length : ℚ) - mean * mean : ℚ) : ℝ) }

/-- `ov::genai::RawPerfMetrics`: raw timestamp/duration sequences.
Raw samples are in microseconds; `m_new_token_times` holds absolute
timestamps (also microseconds in this model). -/
@[ext]
structure RawPerfMetrics where
  generate_durations : List ℚ
  tokenization_durations : List ℚ
  detokenization_durations : List ℚ
  m_times_to_first_token : List ℚ
  m_new_token_times : List ℚ
  m_batch_sizes : List ℕ
  m_durations : List ℚ

/-- `ov::genai::PerfMetrics`: counters, derived statistics and owned raw
metrics. -/
@[ext]
structure PerfMetrics where
  load_time : ℚ
  num_generated_tokens : ℕ
  num_input_tokens : ℕ
  ttft : MeanStdPair
  tpot : MeanStdPair
  throughput : MeanStdPair
  generate_duration : MeanStdPair
  tokenization_duration : MeanStdPair
  detokenization_duration : MeanStdPair
  raw_metrics : RawPerfMetrics

/-- The loop of `PerfMetrics::evaluate_statistics` (lines 51-58): walks the
token timestamps with a rolling previous time (`start_time_val`), emitting
`(tok_times[i] - start_time_val) / batch_sizes[i]` into `m_durations` and
accumulating `num_generated_tokens += batch_sizes[i]`.  The C++ loop runs
over `tok_times.size()` and presumes `batch_sizes` is at least as long
(class invariant); the mismatched case truncates here. -/
def token_loop : ℚ → List ℚ → List ℕ → List ℚ × ℕ
  | _, [], _ => ([], 0)
  | _, _ :: _, [] => ([], 0)
  | prev, t :: ts, b :: bs =>
    let rest := token_loop t ts bs
    (((t - prev) / (b : ℚ)) :: rest.1, b + rest.2)

/-- `PerfMetrics::evaluate_statistics(start_time)` (lines 39-73).  When a
start time is given, `m_durations` and `m_times_to_first_token` are
recomputed from `m_new_token_times`/`m_batch_sizes` and
`num_generated_tokens` is recomputed; then the four mean/std reductions run
and `throughput` is derived from `tpot`.  The source reads `tok_times[0]`
unconditionally (undefined for an empty vector); `List.headI` defaults that
read to 0.  The source assigns `generate_duration` twice (lines 65-66) with
the same value; a single assignment is equivalent. -/
noncomputable def PerfMetrics.evaluate_statistics
    (m : PerfMetrics) (start_time : Option ℚ) : PerfMetrics :=
  let m1 : PerfMetrics :=
    match start_time with
    | some start_time_val =>
      let tok_times := m.raw_metrics.m_new_token_times
      let batch_sizes := m.raw_metrics.m_batch_sizes
      let looped := token_loop start_time_val tok_times batch_sizes
      { m with
        num_generated_tokens := looped.2
        raw_metrics :=
          { m.raw_metrics with
            m_durations := looped.1
            m_times_to_first_token := [tok_times.headI - start_time_val] } }
    | none => m
  let tpot := calc_mean_and_std m1.raw_metrics.m_durations
  let ttft := calc_mean_and_std m1.raw_metrics.m_times_to_first_token
  let generate_duration := calc_mean_and_std m1.raw_metrics.generate_durations
  let tokenization_duration := calc_mean_and_std m1.raw_metrics.tokenization_durations
  let detokenization_duration := calc_mean_and_std m1.raw_metrics.detokenization_durations
  { m1 with
    tpot := tpot
    ttft := ttft
    generate_duration := generate_duration
    tokenization_duration := tokenization_duration
    detokenization_duration := detokenization_duration
    throughput :=
      { mean := 1000 / tpot.mean
        std := (tpot.std * 1000) / ((tpot.mean : ℝ) * (tpot.mean : ℝ)) } }

/-- The body of `PerfMetrics::operator+` (lines 78-107) before the final
`evaluate_statistics` call: copy the left operand into `res`, append the
right operand's durations / first-token times / batch sizes /
tokenization / detokenization / generate durations, set the counters
(`num_input_tokens` is set from the left operand's `num_generated_tokens`,
exactly as the source's line 106 does) and keep `load_time`.
`m_new_token_times` is not touched: it stays the left operand's copy. -/
def PerfMetrics.mergeRaw (left right : PerfMetrics) : PerfMetrics :=
  let res := left
  let res : PerfMetrics :=
    { res with raw_metrics :=
      { res.raw_metrics with
        m_durations := res.raw_metrics.m_durations ++ right.raw_metrics.m_durations
        m_times_to_first_token :=
          res.raw_metrics.m_times_to_first_token ++ right.raw_metrics.m_times_to_first_token
        m_batch_sizes := res.raw_metrics.m_batch_sizes ++ right.raw_metrics.m_batch_sizes
        tokenization_durations :=
          res.raw_metrics.tokenization_durations ++ right.raw_metrics.tokenization_durations
        detokenization_durations :=
          res.raw_metrics.detokenization_durations ++ right.raw_metrics.detokenization_durations
        generate_durations :=
          res.raw_metrics.generate_durations ++ right.raw_metrics.generate_durations } }
  { res with
    num_generated_tokens := left.num_generated_tokens + right.num_generated_tokens
    num_input_tokens := left.num_generated_tokens + right.num_input_tokens
    load_time := left.load_time }

/-- `PerfMetrics::operator+` (lines 75-110).  `OPENVINO_ASSERT` on
mismatched `load_time` is modelled as `none`; on success the merged record
(`mergeRaw`) is finished by `evaluate_statistics` with no start time. -/
noncomputable def PerfMetrics.add (left right : PerfMetrics) : Option PerfMetrics :=
  if right.load_time = left.load_time then
    some ((left.mergeRaw right).evaluate_statistics none)
  else
    none

/-- `PerfMetrics::operator+=` (lines 112-115): `*this = *this + right`. -/
noncomputable def PerfMetrics.addAssign (left right : PerfMetrics) : Option PerfMetrics :=
  PerfMetrics.add left right

/-! ### Projection lemmas for `evaluate_statistics`, `mergeRaw` and `add` -/

theorem eval_none_raw (m : PerfMetrics) :
    (m.evaluate_statistics none).raw_metrics = m.raw_metrics := rfl

theorem eval_none_load_time (m : PerfMetrics) :
    (m.evaluate_statistics none).load_time = m.load_time := rfl

theorem eval_none_num_generated (m : PerfMetrics) :
    (m.evaluate_statistics none).num_generated_tokens = m.num_generated_tokens := rfl

theorem eval_none_num_input (m : PerfMetrics) :
    (m.evaluate_statistics none).num_input_tokens = m.num_input_tokens := rfl

theorem eval_none_tpot (m : PerfMetrics) :
    (m.evaluate_statistics none).tpot = calc_mean_and_std m.raw_metrics.m_durations := rfl

theorem eval_none_ttft (m : PerfMetrics) :
    (m.evaluate_statistics none).ttft =
      calc_mean_and_std m.raw_metrics.m_times_to_first_token := rfl

theorem eval_none_generate (m : PerfMetrics) :
    (m.evaluate_statistics none).generate_duration =
      calc_mean_and_std m.raw_metrics.generate_durations := rfl

theorem eval_none_tokenization (m : PerfMetrics) :
    (m.evaluate_statistics none).tokenization_duration =
      calc_mean_and_std m.raw_metrics.tokenization_durations := rfl

theorem eval_none_detokenization (m : PerfMetrics) :
    (m.evaluate_statistics none).detokenization_duration =
      calc_mean_and_std m.raw_metrics.detokenization_durations := rfl

theorem eval_some_raw (m : PerfMetrics) (st : ℚ) :
    (m.evaluate_statistics (some st)).raw_metrics =
      { m.raw_metrics with
        m_durations :=
          (token_loop st m.raw_metrics.m_new_token_times m.raw_metrics.m_batch_sizes).1
        m_times_to_first_token := [m.raw_metrics.m_new_token_times.headI - st] } := rfl

theorem eval_some_num_generated (m : PerfMetrics) (st : ℚ) :
    (m.evaluate_statistics (some st)).num_generated_tokens =
      (token_loop st m.raw_metrics.m_new_token_times m.raw_metrics.m_batch_sizes).2 := rfl

theorem eval_tpot (m : PerfMetrics) (o : Option ℚ) :
    (m.evaluate_statistics o).tpot =
      calc_mean_and_std (m.evaluate_statistics o).raw_metrics.m_durations := by
  cases o <;> rfl

theorem eval_throughput (m : PerfMetrics) (o : Option ℚ) :
    (m.evaluate_statistics o).throughput =
      { mean := 1000 / (m.evaluate_statistics o).tpot.mean
        std := ((m.evaluate_statistics o).tpot.std * 1000) /
          (((m.evaluate_statistics o).tpot.mean : ℝ) *
            ((m.evaluate_statistics o).tpot.mean : ℝ)) } := by
  cases o <;> rfl

theorem mergeRaw_raw (a b : PerfMetrics) :
    (a.mergeRaw b).raw_metrics =
      { generate_durations :=
          a.raw_metrics.generate_durations ++ b.raw_metrics.generate_durations
        tokenization_durations :=
          a.raw_metrics.tokenization_durations ++ b.raw_metrics.tokenization_durations
        detokenization_durations :=
          a.raw_metrics.detokenization_durations ++ b.raw_metrics.detokenization_durations
        m_times_to_first_token :=
          a.raw_metrics.m_times_to_first_token ++ b.raw_metrics.m_times_to_first_token
        m_new_token_times := a.raw_metrics.m_new_token_times
        m_batch_sizes := a.raw_metrics.m_batch_sizes ++ b.raw_metrics.m_batch_sizes
        m_durations := a.raw_metrics.m_durations ++ b.raw_metrics.m_durations } := rfl

theorem mergeRaw_load_time (a b : PerfMetrics) :
    (a.mergeRaw b).load_time = a.load_time := rfl

theorem mergeRaw_num_generated (a b : PerfMetrics) :
    (a.mergeRaw b).num_generated_tokens =
      a.num_generated_tokens + b.num_generated_tokens := rfl

theorem mergeRaw_num_input (a b : PerfMetrics) :
    (a.mergeRaw b).num_input_tokens =
      a.num_generated_tokens + b.num_input_tokens := rfl

theorem add_of_eq_load (a b : PerfMetrics) (h : b.load_time = a.load_time) :
    a.add b = some ((a.mergeRaw b).evaluate_statistics none) := by
  simp [PerfMetrics.add, h]

theorem add_of_ne_load (a b : PerfMetrics) (h : ¬ b.load_time = a.load_time) :
    a.add b = none := by
  simp [PerfMetrics.add, h]

/-! ### List lemmas -/

theorem token_loop_length (prev : ℚ) (ts : List ℚ) (bs : List ℕ)
    (h : ts.length = bs.length) :
    (token_loop prev ts bs).1.length = ts.length := by
  induction ts generalizing prev bs with
  | nil => simp [token_loop]
  | cons t ts ih =>
    cases bs with
    | nil => simp at h
    | cons b bs => simp [token_loop, ih t bs (by simpa using h)]

theorem token_loop_getD (prev : ℚ) (ts : List ℚ) (bs : List ℕ) (i : ℕ)
    (h : ts.length = bs.length) (hi : i < ts.length) :
    (token_loop prev ts bs).1.getD i 0 =
      (ts.getD i 0 - (if i = 0 then prev else ts.getD (i - 1) 0)) /
        ((bs.getD i 0 : ℕ) : ℚ) := by
  induction ts generalizing prev bs i with
  | nil => simp at hi
  | cons t ts ih =>
    cases bs with
    | nil => simp at h
    | cons b bs =>
      cases i with
      | zero => simp [token_loop]
      | succ j =>
        have h2 : ts.length = bs.length := by simpa using h
        have hj : j < ts.length := by simpa using hi
        have hrec := ih t bs j h2 hj
        simp only [token_loop, List.getD_cons_succ, hrec, Nat.succ_ne_zero, if_false,
          Nat.succ_sub_one]
        cases j with
        | zero => simp
        | succ k => simp

theorem token_loop_sum (prev : ℚ) (ts : List ℚ) (bs : List ℕ)
    (h : ts.length = bs.length) :
    (token_loop prev ts bs).2 = bs.sum := by
  induction ts generalizing prev bs with
  | nil =>
    cases bs with
    | nil => simp [token_loop]
    | cons b bs => simp at h
  | cons t ts ih =>
    cases bs with
    | nil => simp at h
    | cons b bs => simp [token_loop, ih t bs (by simpa using h)]

theorem foldl_add_map (f : ℚ → ℚ) (l : List ℚ) (a : ℚ) :
    l.foldl (fun acc d => acc + f d) a = a + (l.map f).sum := by
  induction l generalizing a with
  | nil => simp
  | cons x xs ih => simp [ih]; ring

theorem two_mul_sum_le (x : ℚ) (l : List ℚ) :
    2 * x * l.sum ≤ (l.length : ℚ) * (x * x) + (l.map (fun y => y * y)).sum := by
  induction l with
  | nil => simp
  | cons y ys ih =>
    simp only [List.sum_cons, List.map_cons, List.length_cons]
    push_cast
    nlinarith [ih, sq_nonneg (x - y)]

theorem sq_sum_le (l : List ℚ) :
    l.sum * l.sum ≤ (l.length : ℚ) * (l.map (fun y => y * y)).sum := by
  induction l with
  | nil => simp
  | cons x xs ih =>
    simp only [List.sum_cons, List.map_cons, List.length_cons]
    push_cast
    nlinarith [ih, two_mul_sum_le x xs]

theorem radicand_nonneg (l : List ℚ) (h : l ≠ []) :
    0 ≤ (l.map (fun y => y * y)).sum / (l.length : ℚ) -
      (l.sum / (l.length : ℚ)) * (l.sum / (l.length : ℚ)) := by
  have hn : 0 < (l.length : ℚ) := by exact_mod_cast List.length_pos.2 h
  have key := sq_sum_le l
  have hrw : (l.map (fun y => y * y)).sum / (l.length : ℚ) -
      (l.sum / (l.length : ℚ)) * (l.sum / (l.length : ℚ)) =
      ((l.length : ℚ) * (l.map (fun y => y * y)).sum - l.sum * l.sum) /
        ((l.length : ℚ) * (l.length : ℚ)) := by
    field_simp
    ring
  rw [hrw]
  apply div_nonneg
  · linarith
  · positivity

/-! ### Sample values used as concrete witnesses -/

def emptyRaw : RawPerfMetrics :=
  { generate_durations := []
    tokenization_durations := []
    detokenization_durations := []
    m_times_to_first_token := []
    m_new_token_times := []
    m_batch_sizes := []
    m_durations := [] }

noncomputable def zeroPair : MeanStdPair := { mean := 0, std := 0 }

/-- Builds a `PerfMetrics` with the given load time, counters and raw
metrics; derived statistics start out zeroed (as after default
construction, before any `evaluate_statistics` call). -/
noncomputable def mkPM (lt : ℚ) (ng ni : ℕ) (raw : RawPerfMetrics) : PerfMetrics :=
  { load_time := lt
    num_generated_tokens := ng
    num_input_tokens := ni
    ttft := zeroPair
    tpot := zeroPair
    throughput := zeroPair
    generate_duration := zeroPair
    tokenization_duration := zeroPair
    detokenization_duration := zeroPair
    raw_metrics := raw }

noncomputable def pmX : PerfMetrics :=
  mkPM 7 4 6 { emptyRaw with
    m_durations := [2000], m_times_to_first_token := [2000]
    m_new_token_times := [2000], m_batch_sizes := [1]
    tokenization_durations := [100], detokenization_durations := [200]
    generate_durations := [3000] }

noncomputable def pmY : PerfMetrics :=
  mkPM 7 9 5 { emptyRaw with
    m_durations := [4000], m_times_to_first_token := [4000]
    m_new_token_times := [4000], m_batch_sizes := [2]
    tokenization_durations := [300], detokenization_durations := [400]
    generate_durations := [5000] }

noncomputable def pmZ : PerfMetrics :=
  mkPM 7 10 20 { emptyRaw with
    m_durations := [6000], m_times_to_first_token := [6000]
    m_new_token_times := [6000], m_batch_sizes := [3]
    tokenization_durations := [500], detokenization_durations := [600]
    generate_durations := [7000] }

/-! ### C3: mean/std reduction -/

/-- C3: for every non-empty list of microsecond durations,
`calc_mean_and_std` returns the arithmetic average of the
millisecond-converted samples as `mean`, and as `std` the square root of
`average((x/1000)^2) - mean^2` (population standard deviation); the
radicand is non-negative and the returned `std` is non-negative. -/
theorem calc_mean_and_std_spec (l : List ℚ) (h : l ≠ []) :
    (calc_mean_and_std l).mean = (l.map (fun x => x / 1000)).sum / (l.length : ℚ) ∧
    (calc_mean_and_std l).std = Real.sqrt
      (((l.map (fun x => (x / 1000) * (x / 1000))).sum / (l.length : ℚ) -
        ((l.map (fun x => x / 1000)).sum / (l.length : ℚ)) *
          ((l.map (fun x => x / 1000)).sum / (l.length : ℚ)) : ℚ)) ∧
    0 ≤ ((l.map (fun x => (x / 1000) * (x / 1000))).sum / (l.length : ℚ) -
        ((l.map (fun x => x / 1000)).sum / (l.length : ℚ)) *
          ((l.map (fun x => x / 1000)).sum / (l.length : ℚ))) ∧
    0 ≤ (calc_mean_and_std l).std := by
  have hmean : (calc_mean_and_std l).mean =
      (l.map (fun x => x / 1000)).sum / (l.length : ℚ) := by
    simp only [calc_mean_and_std, foldl_add_map (fun x => x / 1000) l 0, zero_add]
  have hsq : l.foldl (fun acc d => acc + (d / 1000) * (d / 1000)) 0 =
      (l.map (fun x => (x / 1000) * (x / 1000))).sum := by
    simp only [foldl_add_map (fun x => (x / 1000) * (x / 1000)) l 0, zero_add]
  have hstd : (calc_mean_and_std l).std = Real.sqrt
      (((l.map (fun x => (x / 1000) * (x / 1000))).sum / (l.length : ℚ) -
        ((l.map (fun x => x / 1000)).sum / (l.length : ℚ)) *
          ((l.map (fun x => x / 1000)).sum / (l.length : ℚ)) : ℚ)) := by
    simp only [calc_mean_and_std, hsq, foldl_add_map (fun x => x / 1000) l 0, zero_add]
  have hrad : 0 ≤ ((l.map (fun x => (x / 1000) * (x / 1000))).sum / (l.length : ℚ) -
      ((l.map (fun x => x / 1000)).sum / (l.length : ℚ)) *
        ((l.map (fun x => x / 1000)).sum / (l.length : ℚ))) := by
    have h2 := radicand_nonneg (l.map (fun x => x / 1000)) (by simpa using h)
    simpa [List.map_map, Function.comp] using h2
  exact ⟨hmean, hstd, hrad, by rw [hstd]; exact Real.sqrt_nonneg _⟩

/-- Witness for C3 at the one-element input `[1000]`. -/
theorem calc_mean_and_std_spec_witness :
    ([(1000 : ℚ)] ≠ []) ∧
    (calc_mean_and_std [(1000 : ℚ)]).mean =
      (([(1000 : ℚ)].map (fun x => x / 1000)).sum / (([(1000 : ℚ)].length : ℕ) : ℚ)) ∧
    0 ≤ (calc_mean_and_std [(1000 : ℚ)]).std := by
  have h := calc_mean_and_std_spec [(1000 : ℚ)] (by simp)
  exact ⟨by simp, h.1, h.2.2.2⟩

/-! ### C4: throughput derived from tpot -/

/-- C4: after `evaluate_statistics` (here with non-empty duration data and
non-zero `tpot.mean`), `throughput.mean = 1000 / tpot.mean` and
`throughput.std = tpot.std * 1000 / (tpot.mean * tpot.mean)`. -/
theorem throughput_from_tpot (m : PerfMetrics) (o : Option ℚ)
    (h1 : (m.evaluate_statistics o).raw_metrics.m_durations ≠ [])
    (h2 : (m.evaluate_statistics o).tpot.mean ≠ 0) :
    (m.evaluate_statistics o).throughput.mean =
      1000 / (m.evaluate_statistics o).tpot.mean ∧
    (m.evaluate_statistics o).throughput.std =
      ((m.evaluate_statistics o).tpot.std * 1000) /
        (((m.evaluate_statistics o).tpot.mean : ℝ) *
          ((m.evaluate_statistics o).tpot.mean : ℝ)) := by
  constructor <;> rw [eval_throughput]

/-- Witness for C4: `pmX` has one 2000 microsecond duration, so after
`evaluate_statistics` (no start time) `tpot.mean = 2` milliseconds. -/
theorem throughput_from_tpot_witness :
    ((pmX.evaluate_statistics none).raw_metrics.m_durations ≠ []) ∧
    ((pmX.evaluate_statistics none).tpot.mean ≠ 0) ∧
    (pmX.evaluate_statistics none).throughput.mean =
      1000 / (pmX.evaluate_statistics none).tpot.mean := by
  have hd : (pmX.evaluate_statistics none).raw_metrics.m_durations ≠ [] := by
    simp [eval_none_raw, pmX, mkPM, emptyRaw]
  have hm : (pmX.evaluate_statistics none).tpot.mean ≠ 0 := by
    simp [eval_none_tpot, pmX, mkPM, emptyRaw, calc_mean_and_std]
  exact ⟨hd, hm, (throughput_from_tpot pmX none hd hm).1⟩

/-! ### C5: load-time precondition of merge -/

/-- C5: `a + b` fails (returns `none`, the model of the fatal
`OPENVINO_ASSERT`) exactly when the two load times differ, and on success
the result's `load_time` is the common load time. -/
theorem add_load_time_spec (a b : PerfMetrics) :
    (a.add b = none ↔ a.load_time ≠ b.load_time) ∧
    (a.load_time = b.load_time →
      (a.add b).map PerfMetrics.load_time = some a.load_time) := by
  constructor
  · constructor
    · intro h he
      rw [add_of_eq_load a b he.symm] at h
      simp at h
    · intro h
      exact add_of_ne_load a b (fun he => h he.symm)
  · intro h
    rw [add_of_eq_load a b h.symm]
    simp [Option.map_some, eval_none_load_time, mergeRaw_load_time]

/-- Witness for C5 at `pmX`, `pmY` (both have load time 7). -/
theorem add_load_time_spec_witness :
    pmX.load_time = pmY.load_time ∧
    (pmX.add pmY).map PerfMetrics.load_time = some pmX.load_time :=
  ⟨rfl, (add_load_time_spec pmX pmY).2 rfl⟩

/-! ### C8: time-to-first-token is captured pre-division -/

/-- C8: with a start time, `evaluate_statistics` stores as the (single)
time-to-first-token the raw difference `new_token_times[0] - start_time`,
not divided by `batch_sizes[0]`. -/
theorem ttft_pre_division (m : PerfMetrics) (st : ℚ)
    (h : m.raw_metrics.m_new_token_times ≠ []) :
    (m.evaluate_statistics (some st)).raw_metrics.m_times_to_first_token =
      [m.raw_metrics.m_new_token_times.headI - st] := rfl

/-- Witness for C8: `pmY` has first token time 4000 with batch size 2;
with start time 1000 the recorded time-to-first-token is the undivided
3000. -/
theorem ttft_pre_division_witness :
    (pmY.raw_metrics.m_new_token_times ≠ []) ∧
    (pmY.evaluate_statistics (some 1000)).raw_metrics.m_times_to_first_token =
      [pmY.raw_metrics.m_new_token_times.headI - 1000] :=
  ⟨by simp [pmY, mkPM, emptyRaw], ttft_pre_division pmY 1000 (by simp [pmY, mkPM, emptyRaw])⟩

/-! ### C10: the merge drops the right operand's token timestamps -/

/-- C10: `a + b` does not concatenate `m_new_token_times`; the merged
value keeps exactly the left operand's timestamp list, so the right
operand's timestamps (and their pairing with its batch sizes) are gone. -/
theorem add_keeps_left_token_times (a b : PerfMetrics)
    (h : a.load_time = b.load_time) :
    (a.add b).map (fun r => r.raw_metrics.m_new_token_times) =
      some a.raw_metrics.m_new_token_times := by
  rw [add_of_eq_load a b h.symm]
  simp [Option.map_some, eval_none_raw, mergeRaw_raw]

/-- Witness for C10 at `pmX`, `pmY`. -/
theorem add_keeps_left_token_times_witness :
    pmX.load_time = pmY.load_time ∧
    (pmX.add pmY).map (fun r => r.raw_metrics.m_new_token_times) =
      some pmX.raw_metrics.m_new_token_times :=
  ⟨rfl, add_keeps_left_token_times pmX pmY rfl⟩

/-! ### C2: durations from rolling timestamps -/

/-- C2: with a start time and `n >= 1` timestamps paired with `n` positive
batch sizes, `evaluate_statistics` sets
`durations[0] = (new_token_times[0] - start_time) / batch_sizes[0]`,
`durations[i] = (new_token_times[i] - new_token_times[i-1]) / batch_sizes[i]`
for `i > 0`, and recomputes `num_generated_tokens` as the sum of the batch
sizes. -/
theorem evaluate_statistics_start_time_spec (m : PerfMetrics) (st : ℚ) (n : ℕ)
    (hn : 1 ≤ n)
    (hts : m.raw_metrics.m_new_token_times.length = n)
    (hbs : m.raw_metrics.m_batch_sizes.length = n)
    (hpos : ∀ b ∈ m.raw_metrics.m_batch_sizes, 0 < b) :
    (m.evaluate_statistics (some st)).raw_metrics.m_durations.length = n ∧
    (m.evaluate_statistics (some st)).raw_metrics.m_durations.getD 0 0 =
      (m.raw_metrics.m_new_token_times.getD 0 0 - st) /
        ((m.raw_metrics.m_batch_sizes.getD 0 0 : ℕ) : ℚ) ∧
    (∀ i, 0 < i → i < n →
      (m.evaluate_statistics (some st)).raw_metrics.m_durations.getD i 0 =
        (m.raw_metrics.m_new_token_times.getD i 0 -
          m.raw_metrics.m_new_token_times.getD (i - 1) 0) /
          ((m.raw_metrics.m_batch_sizes.getD i 0 : ℕ) : ℚ)) ∧
    (m.evaluate_statistics (some st)).num_generated_tokens =
      m.raw_metrics.m_batch_sizes.sum := by
  have hlen : m.raw_metrics.m_new_token_times.length =
      m.raw_metrics.m_batch_sizes.length := by rw [hts, hbs]
  have hdur : (m.evaluate_statistics (some st)).raw_metrics.m_durations =
      (token_loop st m.raw_metrics.m_new_token_times m.raw_metrics.m_batch_sizes).1 := by
    rw [eval_some_raw]
  refine ⟨?_, ?_, ?_, ?_⟩
  · rw [hdur, token_loop_length _ _ _ hlen, hts]
  · rw [hdur, token_loop_getD _ _ _ 0 hlen (by omega)]
    simp
  · intro i h0 hi
    rw [hdur, token_loop_getD _ _ _ i hlen (by omega)]
    simp [Nat.pos_iff_ne_zero.mp h0]
  · rw [eval_some_num_generated, token_loop_sum _ _ _ hlen]

noncomputable def pmC2 : PerfMetrics :=
  mkPM 0 0 0 { emptyRaw with m_new_token_times := [10000, 30000], m_batch_sizes := [2, 5] }

/-- Witness for C2: two timestamps 10000 and 30000 with batch sizes 2 and
5, start time 0: the generated-token counter becomes 7 and
`durations[0] = 10000 / 2`. -/
theorem evaluate_statistics_start_time_spec_witness :
    (1 : ℕ) ≤ 2 ∧
    pmC2.raw_metrics.m_new_token_times.length = 2 ∧
    pmC2.raw_metrics.m_batch_sizes.length = 2 ∧
    (pmC2.evaluate_statistics (some 0)).num_generated_tokens =
      pmC2.raw_metrics.m_batch_sizes.sum ∧
    (pmC2.evaluate_statistics (some 0)).raw_metrics.m_durations.getD 0 0 =
      (pmC2.raw_metrics.m_new_token_times.getD 0 0 - 0) /
        ((pmC2.raw_metrics.m_batch_sizes.getD 0 0 : ℕ) : ℚ) := by
  have h := evaluate_statistics_start_time_spec pmC2 0 2 (by norm_num)
    (by simp [pmC2, mkPM, emptyRaw]) (by simp [pmC2, mkPM, emptyRaw])
    (by simp [pmC2, mkPM, emptyRaw])
  exact ⟨by norm_num, by simp [pmC2, mkPM, emptyRaw], by simp [pmC2, mkPM, emptyRaw],
    h.2.2.2, h.2.1⟩

/-! ### C7: concrete tpot/throughput values -/

noncomputable def pmC7a : PerfMetrics :=
  mkPM 0 0 0 { emptyRaw with
    m_new_token_times := [10000, 20000, 30000], m_batch_sizes := [1, 1, 1] }

noncomputable def pmC7b : PerfMetrics :=
  mkPM 0 0 0 { emptyRaw with m_new_token_times := [10000], m_batch_sizes := [5] }

/-- C7: with batch sizes `[1,1,1]`, tokens at 10/20/30 ms (microsecond
timestamps 10000/20000/30000) and start time 0, `tpot.mean = 10` ms and
`throughput.mean = 100` tokens/sec; with batch sizes `[5]` and a single
10 ms gap, `tpot.mean = 2` ms per token. -/
theorem concrete_tpot_throughput :
    (pmC7a.evaluate_statistics (some 0)).tpot.mean = 10 ∧
    (pmC7a.evaluate_statistics (some 0)).throughput.mean = 100 ∧
    (pmC7b.evaluate_statistics (some 0)).tpot.mean = 2 := by
  refine ⟨?_, ?_, ?_⟩ <;>
    · simp [pmC7a, pmC7b, mkPM, emptyRaw, PerfMetrics.evaluate_statistics,
        calc_mean_and_std, token_loop]
      norm_num

/-! ### C1: token counters of the merge -/

noncomputable def pmBugA : PerfMetrics := mkPM 0 5 3 emptyRaw

noncomputable def pmBugB : PerfMetrics := mkPM 0 11 2 emptyRaw

/-- C1: evaluation of the merge counters at a concrete input.  The
generated-token counter is summed (16 = 5 + 11), but the input-token
counter of the merge is 7 = left `num_generated_tokens` (5) + right
`num_input_tokens` (2) — source line 106 — whereas summing the input
counters as the claim states would give 3 + 2 = 5. -/
theorem add_num_input_tokens_code_bug :
    (pmBugA.add pmBugB).map (fun r => r.num_generated_tokens) = some 16 ∧
    pmBugA.num_generated_tokens + pmBugB.num_generated_tokens = 16 ∧
    (pmBugA.add pmBugB).map (fun r => r.num_input_tokens) = some 7 ∧
    pmBugA.num_input_tokens + pmBugB.num_input_tokens = 5 := by
  have h : pmBugB.load_time = pmBugA.load_time := rfl
  refine ⟨?_, rfl, ?_, rfl⟩ <;>
    · rw [add_of_eq_load pmBugA pmBugB h]
      rfl

/-! ### C6: associativity of the merge -/

theorem eval_none_eq (m : PerfMetrics) :
    m.evaluate_statistics none =
      { load_time := m.load_time
        num_generated_tokens := m.num_generated_tokens
        num_input_tokens := m.num_input_tokens
        ttft := calc_mean_and_std m.raw_metrics.m_times_to_first_token
        tpot := calc_mean_and_std m.raw_metrics.m_durations
        throughput :=
          { mean := 1000 / (calc_mean_and_std m.raw_metrics.m_durations).mean
            std := ((calc_mean_and_std m.raw_metrics.m_durations).std * 1000) /
              (((calc_mean_and_std m.raw_metrics.m_durations).mean : ℝ) *
                ((calc_mean_and_std m.raw_metrics.m_durations).mean : ℝ)) }
        generate_duration := calc_mean_and_std m.raw_metrics.generate_durations
        tokenization_duration := calc_mean_and_std m.raw_metrics.tokenization_durations
        detokenization_duration := calc_mean_and_std m.raw_metrics.detokenization_durations
        raw_metrics := m.raw_metrics } := rfl

theorem eval_none_congr (x y : PerfMetrics)
    (h1 : x.load_time = y.load_time)
    (h2 : x.num_generated_tokens = y.num_generated_tokens)
    (h3 : x.num_input_tokens = y.num_input_tokens)
    (h4 : x.raw_metrics = y.raw_metrics) :
    x.evaluate_statistics none = y.evaluate_statistics none := by
  rw [eval_none_eq, eval_none_eq, h1, h2, h3, h4]

/-- C6: for operands with equal load times the merge is associative —
`(a+b)+c` and `a+(b+c)` are the same `PerfMetrics` value (hence identical
raw sequences and identical token counters) — and `a+b` concatenates each
of the six merged raw sequences left-then-right and carries the derived
statistics computed by the mean/std reduction directly over the
concatenated raw sequences of `a` and `b`. -/
theorem add_assoc_spec (a b c : PerfMetrics)
    (hab : a.load_time = b.load_time) (hbc : b.load_time = c.load_time) :
    ((a.add b).bind (fun x => x.add c) = (b.add c).bind (fun y => a.add y)) ∧
    (∀ r, a.add b = some r →
      r.raw_metrics.m_durations =
        a.raw_metrics.m_durations ++ b.raw_metrics.m_durations ∧
      r.raw_metrics.m_batch_sizes =
        a.raw_metrics.m_batch_sizes ++ b.raw_metrics.m_batch_sizes ∧
      r.raw_metrics.m_times_to_first_token =
        a.raw_metrics.m_times_to_first_token ++ b.raw_metrics.m_times_to_first_token ∧
      r.raw_metrics.tokenization_durations =
        a.raw_metrics.tokenization_durations ++ b.raw_metrics.tokenization_durations ∧
      r.raw_metrics.detokenization_durations =
        a.raw_metrics.detokenization_durations ++ b.raw_metrics.detokenization_durations ∧
      r.raw_metrics.generate_durations =
        a.raw_metrics.generate_durations ++ b.raw_metrics.generate_durations ∧
      r.num_generated_tokens = a.num_generated_tokens + b.num_generated_tokens ∧
      r.tpot = calc_mean_and_std
        (a.raw_metrics.m_durations ++ b.raw_metrics.m_durations) ∧
      r.ttft = calc_mean_and_std
        (a.raw_metrics.m_times_to_first_token ++ b.raw_metrics.m_times_to_first_token) ∧
      r.generate_duration = calc_mean_and_std
        (a.raw_metrics.generate_durations ++ b.raw_metrics.generate_durations) ∧
      r.tokenization_duration = calc_mean_and_std
        (a.raw_metrics.tokenization_durations ++ b.raw_metrics.tokenization_durations) ∧
      r.detokenization_duration = calc_mean_and_std
        (a.raw_metrics.detokenization_durations ++ b.raw_metrics.detokenization_durations)) := by
  constructor
  · rw [add_of_eq_load a b hab.symm, add_of_eq_load b c hbc.symm]
    simp only [Option.some_bind]
    have hXc : c.load_time =
        (((a.mergeRaw b).evaluate_statistics none)).load_time := by
      rw [eval_none_load_time, mergeRaw_load_time, ← hbc, ← hab]
    have haY : (((b.mergeRaw c).evaluate_statistics none)).load_time = a.load_time := by
      rw [eval_none_load_time, mergeRaw_load_time, ← hab]
    rw [add_of_eq_load _ c hXc, add_of_eq_load a _ haY]
    apply congrArg some
    apply eval_none_congr
    · rw [mergeRaw_load_time, mergeRaw_load_time, eval_none_load_time, mergeRaw_load_time]
    · rw [mergeRaw_num_generated, mergeRaw_num_generated,
        eval_none_num_generated, eval_none_num_generated,
        mergeRaw_num_generated, mergeRaw_num_generated, Nat.add_assoc]
    · rw [mergeRaw_num_input, mergeRaw_num_input,
        eval_none_num_generated, eval_none_num_input,
        mergeRaw_num_generated, mergeRaw_num_input, Nat.add_assoc]
    · rw [mergeRaw_raw, mergeRaw_raw, eval_none_raw, eval_none_raw,
        mergeRaw_raw, mergeRaw_raw]
      simp [List.append_assoc]
  · intro r hr
    rw [add_of_eq_load a b hab.symm] at hr
    injection hr with hr
    subst hr
    refine ⟨?_, ?_, ?_, ?_, ?_, ?_, ?_, ?_, ?_, ?_, ?_, ?_⟩ <;>
      simp [eval_none_raw, eval_none_num_generated, eval_none_tpot, eval_none_ttft,
        eval_none_generate, eval_none_tokenization, eval_none_detokenization,
        mergeRaw_raw, mergeRaw_num_generated]

/-- Witness for C6 at `pmX`, `pmY`, `pmZ` (all with load time 7). -/
theorem add_assoc_spec_witness :
    pmX.load_time = pmY.load_time ∧ pmY.load_time = pmZ.load_time ∧
    (pmX.add pmY).bind (fun x => x.add pmZ) =
      (pmY.add pmZ).bind (fun y => pmX.add y) :=
  ⟨rfl, rfl, (add_assoc_spec pmX pmY pmZ rfl rfl).1⟩

/-! ### C9: the merge is a pure value operation

`operator+` is modelled statement by statement over a state holding the
two operands (`left` is `*this`, `right` the argument, both taken by
const reference in the source) and the local `res`; each statement of the
body only writes `res`, so evaluating the merge leaves both operands
unchanged. -/

/-- State of one `operator+` call: the two operands and the local `res`. -/
structure MergeState where
  left : PerfMetrics
  right : PerfMetrics
  res : PerfMetrics

/-- Line 79: `PerfMetrics res = *this`. -/
def stmt_copy (s : MergeState) : MergeState := { s with res := s.left }

/-- Lines 89-91: append the right operand's durations, first-token times
and batch sizes to those of `res`. -/
def stmt_concat_token_metrics (s : MergeState) : MergeState :=
  { s with res := { s.res with raw_metrics := { s.res.raw_metrics with
      m_durations := s.res.raw_metrics.m_durations ++ s.right.raw_metrics.m_durations
      m_times_to_first_token :=
        s.res.raw_metrics.m_times_to_first_token ++ s.right.raw_metrics.m_times_to_first_token
      m_batch_sizes :=
        s.res.raw_metrics.m_batch_sizes ++ s.right.raw_metrics.m_batch_sizes } } }

/-- Lines 101-103: append the right operand's tokenization,
detokenization and generate durations to those of `res`. -/
def stmt_concat_stage_durations (s : MergeState) : MergeState :=
  { s with res := { s.res with raw_metrics := { s.res.raw_metrics with
      tokenization_durations :=
        s.res.raw_metrics.tokenization_durations ++ s.right.raw_metrics.tokenization_durations
      detokenization_durations :=
        s.res.raw_metrics.detokenization_durations ++
          s.right.raw_metrics.detokenization_durations
      generate_durations :=
        s.res.raw_metrics.generate_durations ++ s.right.raw_metrics.generate_durations } } }

/-- Lines 105-107: set the counters of `res`, reading `*this` (the left
operand) and the right operand. -/
def stmt_set_counters (s : MergeState) : MergeState :=
  { s with res := { s.res with
      num_generated_tokens := s.left.num_generated_tokens + s.right.num_generated_tokens
      num_input_tokens := s.left.num_generated_tokens + s.right.num_input_tokens
      load_time := s.left.load_time } }

/-- Line 108: `res.evaluate_statistics()`. -/
noncomputable def stmt_eval_stats (s : MergeState) : MergeState :=
  { s with res := s.res.evaluate_statistics none }

/-- The straight-line body of `operator+` (lines 79-108). -/
noncomputable def merge_body (s : MergeState) : MergeState :=
  stmt_eval_stats (stmt_set_counters (stmt_concat_stage_durations
    (stmt_concat_token_metrics (stmt_copy s))))

/-- `operator+` over `MergeState`: the `OPENVINO_ASSERT` (line 76) then
the body. -/
noncomputable def merge_run (s : MergeState) : Option MergeState :=
  if s.right.load_time = s.left.load_time then some (merge_body s) else none

/-- C9: the merge is a pure value operation: a completed `operator+` call
leaves both operands exactly as they were and its `res` is the merge
value `add`, and `operator+=` equals assignment of `a + b`. -/
theorem merge_is_pure :
    (∀ s t : MergeState, merge_run s = some t →
      t.left = s.left ∧ t.right = s.right ∧
      PerfMetrics.add s.left s.right = some t.res) ∧
    (∀ a b : PerfMetrics, a.addAssign b = a.add b) := by
  constructor
  · intro s t h
    rw [merge_run] at h
    by_cases hl : s.right.load_time = s.left.load_time
    · rw [if_pos hl] at h
      injection h with h
      subst h
      exact ⟨rfl, rfl, by rw [add_of_eq_load _ _ hl]; rfl⟩
    · rw [if_neg hl] at h
      exact absurd h (by simp)
  · intro a b
    rfl

/-- Witness for C9 at the state `(pmX, pmY, pmZ)` (equal load times, so
the run succeeds; `pmZ` is the arbitrary initial value of `res`). -/
theorem merge_is_pure_witness :
    merge_run ⟨pmX, pmY, pmZ⟩ = some (merge_body ⟨pmX, pmY, pmZ⟩) ∧
    (merge_body ⟨pmX, pmY, pmZ⟩).left = pmX ∧
    (merge_body ⟨pmX, pmY, pmZ⟩).right = pmY ∧
    PerfMetrics.add pmX pmY = some (merge_body ⟨pmX, pmY, pmZ⟩).res := by
  have hc : (⟨pmX, pmY, pmZ⟩ : MergeState).right.load_time =
      (⟨pmX, pmY, pmZ⟩ : MergeState).left.load_time := rfl
  have hrun : merge_run ⟨pmX, pmY, pmZ⟩ = some (merge_body ⟨pmX, pmY, pmZ⟩) := by
    rw [merge_run, if_pos hc]
  have h := merge_is_pure.1 ⟨pmX, pmY, pmZ⟩ (merge_body ⟨pmX, pmY, pmZ⟩) hrun
  exact ⟨hrun, h.1, h.2.1, h.2.2⟩
